import Mathlib

/-!
Shallow embedding of `FINE/subclasses/storageExt.py`: the `StorageExt` storage
component (constructor, time-series view selection, aggregation input) and the
`StorageExtModel` constraint formulator (the five precise-TSA state-of-charge
constraint rules and the selection of the SOC constraint family in
`declareComponentConstraints`).

Numbers are modelled as rationals; `hoursPerTimeStep` is modelled as a natural
number of hours so that the decay exponent `t * hoursPerTimeStep` stays a
natural number. Pyomo constraint expressions are modelled by a small symbolic
AST (`LinExpr` / `PyConstraint`) over the model's decision variables, with a
semantic evaluation `LinExpr.eval` and satisfaction relation
`PyConstraint.holds`.
-/

/-- Decision variables of the storage model referenced by the SOC constraints:
`stateOfChargeInterPeriods` (inter-period SOC at a period boundary),
`stateOfCharge` (intra-period SOC at (typical period, timestep)) and `cap`
(installed capacity). -/
inductive SVar where
  | socInter (loc comp : String) (pInter : ℕ)
  | soc (loc comp : String) (p t : ℕ)
  | cap (loc comp : String)
deriving DecidableEq, Repr

/-- Symbolic linear expression over the decision variables, as built by the
pyomo constraint rules: a coefficient times a variable, a bare variable, a sum,
or a constant. -/
inductive LinExpr where
  | scaled (c : ℚ) (v : SVar)
  | var (v : SVar)
  | add (a b : LinExpr)
  | const (c : ℚ)
deriving DecidableEq, Repr

/-- A constraint returned by a pyomo rule: skipped (`pyomo.Constraint.Skip`),
an inequality `lhs <= rhs`, or an equality `lhs == rhs`. -/
inductive PyConstraint where
  | skip
  | le (lhs rhs : LinExpr)
  | eq (lhs rhs : LinExpr)
deriving DecidableEq, Repr

/-- Value of a symbolic expression under a valuation of the variables. -/
def LinExpr.eval (v : SVar → ℚ) : LinExpr → ℚ
  | .scaled c x => c * v x
  | .var x => v x
  | .add a b => a.eval v + b.eval v
  | .const c => c

/-- A valuation satisfies a constraint; a skipped constraint holds vacuously. -/
def PyConstraint.holds (v : SVar → ℚ) : PyConstraint → Prop
  | .skip => True
  | .le l r => l.eval v ≤ r.eval v
  | .eq l r => l.eval v = r.eval v

instance (v : SVar → ℚ) (c : PyConstraint) : Decidable (c.holds v) := by
  cases c <;> simp [PyConstraint.holds] <;> infer_instance

/-- The slice of the energy system model (`esM`) read by the precise-TSA SOC
constraint rules: the hours per time step and the map `periodsOrder` from a
real-period index to its assigned typical period. -/
structure EnergySystemView where
  hoursPerTimeStep : ℕ
  periodsOrder : ℕ → ℕ

/-- The slice of a `StorageExt` component read by the precise-TSA SOC
constraint rules (`compDict[compName]` in the source): the precise-modeling
flag, the hourly self discharge, the relative maximum state of charge, and the
two active state-of-charge time series, indexed as `series[loc][p, t]`. The
series are total functions: the sparse constraint index sets guarantee a rule
only reads a series that is present on the component. -/
structure StorageCompView where
  doPreciseTsaModeling : Bool
  selfDischarge : ℚ
  stateOfChargeMax : ℚ
  stateOfChargeOpRateFix : String → ℕ → ℕ → ℚ
  stateOfChargeOpRateMax : String → ℕ → ℕ → ℚ

/-- The self-discharge decay factor `(1 - selfDischarge) ** k` appearing in
every precise-TSA SOC constraint, with exponent `k = t * hoursPerTimeStep`. -/
def decayFactor (selfDischarge : ℚ) (k : ℕ) : ℚ := (1 - selfDischarge) ^ k

/-- The left-hand side shared by all five precise-TSA SOC constraint rules:
`SOCinter[loc, compName, pInter] * (1 - selfDischarge) ** (t * hoursPerTimeStep)
 + SOC[loc, compName, periodsOrder[pInter], t]`. -/
def preciseSOClhs (cv : StorageCompView) (esM : EnergySystemView)
    (loc compName : String) (pInter t : ℕ) : LinExpr :=
  .add (.scaled (decayFactor cv.selfDischarge (t * esM.hoursPerTimeStep))
                (.socInter loc compName pInter))
       (.var (.soc loc compName (esM.periodsOrder pInter) t))

/-- Rule of `operationModeSOCwithTSA1` (storageExt.py lines 200-207): on index
set 1, bound the decayed inter-period SOC plus the intra-period SOC by
`capVar[loc, compName] * stateOfChargeMax`; skip unless the component does
precise TSA modeling. -/
def SOCMaxPrecise1 (compDict : String → StorageCompView) (esM : EnergySystemView)
    (loc compName : String) (pInter t : ℕ) : PyConstraint :=
  if (compDict compName).doPreciseTsaModeling then
    .le (preciseSOClhs (compDict compName) esM loc compName pInter t)
        (.scaled (compDict compName).stateOfChargeMax (.cap loc compName))
  else
    .skip

/-- Rule of `operationModeSOCwithTSA2` (storageExt.py lines 221-229): on index
set 2, the decayed inter-period SOC plus the intra-period SOC equals
`capVar[loc, compName] * stateOfChargeOpRateFix[loc][periodsOrder[pInter], t]`;
skip unless the component does precise TSA modeling. -/
def SOCMaxPrecise2 (compDict : String → StorageCompView) (esM : EnergySystemView)
    (loc compName : String) (pInter t : ℕ) : PyConstraint :=
  if (compDict compName).doPreciseTsaModeling then
    .eq (preciseSOClhs (compDict compName) esM loc compName pInter t)
        (.scaled ((compDict compName).stateOfChargeOpRateFix loc
                    (esM.periodsOrder pInter) t)
                 (.cap loc compName))
  else
    .skip

/-- Rule of `operationModeSOCwithTSA3` (storageExt.py lines 243-251): on index
set 3, bound the decayed inter-period SOC plus the intra-period SOC by
`capVar[loc, compName] * stateOfChargeOpRateMax[loc][periodsOrder[pInter], t]`;
skip unless the component does precise TSA modeling. -/
def SOCMaxPrecise3 (compDict : String → StorageCompView) (esM : EnergySystemView)
    (loc compName : String) (pInter t : ℕ) : PyConstraint :=
  if (compDict compName).doPreciseTsaModeling then
    .le (preciseSOClhs (compDict compName) esM loc compName pInter t)
        (.scaled ((compDict compName).stateOfChargeOpRateMax loc
                    (esM.periodsOrder pInter) t)
                 (.cap loc compName))
  else
    .skip

/-- Rule of `operationModeSOCwithTSA4` (storageExt.py lines 262-269): on index
set 4, the decayed inter-period SOC plus the intra-period SOC equals the
absolute series value `stateOfChargeOpRateFix[loc][periodsOrder[pInter], t]`,
with no capacity factor; skip unless the component does precise TSA modeling. -/
def SOCMaxPrecise4 (compDict : String → StorageCompView) (esM : EnergySystemView)
    (loc compName : String) (pInter t : ℕ) : PyConstraint :=
  if (compDict compName).doPreciseTsaModeling then
    .eq (preciseSOClhs (compDict compName) esM loc compName pInter t)
        (.const ((compDict compName).stateOfChargeOpRateFix loc
                   (esM.periodsOrder pInter) t))
  else
    .skip

/-- Rule of `operationModeSOCwithTSA5` (storageExt.py lines 280-287): on index
set 5, bound the decayed inter-period SOC plus the intra-period SOC by the
absolute series value `stateOfChargeOpRateMax[loc][periodsOrder[pInter], t]`;
skip unless the component does precise TSA modeling. -/
def SOCMaxPrecise5 (compDict : String → StorageCompView) (esM : EnergySystemView)
    (loc compName : String) (pInter t : ℕ) : PyConstraint :=
  if (compDict compName).doPreciseTsaModeling then
    .le (preciseSOClhs (compDict compName) esM loc compName pInter t)
        (.const ((compDict compName).stateOfChargeOpRateMax loc
                   (esM.periodsOrder pInter) t))
  else
    .skip

/-- The constraint stated by the spec (section 4.3) for the stateOfChargeMax
variant: `SOC_inter[boundary] * (1 - selfDischarge)^(timestep * hoursPerTimeStep)
+ SOC_intra[typicalPeriodOf(boundary), timestep] <= capacity * stateOfChargeMax`. -/
def specPreciseSOCMaxBound (cv : StorageCompView) (esM : EnergySystemView)
    (loc compName : String) (pInter t : ℕ) : PyConstraint :=
  .le (.add (.scaled ((1 - cv.selfDischarge) ^ (t * esM.hoursPerTimeStep))
                     (.socInter loc compName pInter))
            (.var (.soc loc compName (esM.periodsOrder pInter) t)))
      (.scaled cv.stateOfChargeMax (.cap loc compName))

/-- Warnings emitted by the `StorageExt` constructor (Python `warnings.warn`
calls at storageExt.py lines 75, 79, 83 and 88). -/
inductive Warning where
  | socOpRateMaxDiscarded
  | preciseModelingForced
  | socOpRateMaxCaution
  | periodicalStorageForced
deriving DecidableEq, Repr

/-- The constructor arguments of `StorageExt.__init__` that the state-of-charge
handling reads, with the time series of each operation class abstracted to an
arbitrary type `α` (`none` models a Python `None` argument). -/
structure StorageExtArgs (α : Type) where
  doPreciseTsaModeling : Bool
  isPeriodicalStorage : Bool
  chargeOpRateMax : Option α
  chargeOpRateFix : Option α
  chargeTsaWeight : ℚ
  dischargeOpRateMax : Option α
  dischargeOpRateFix : Option α
  dischargeTsaWeight : ℚ
  stateOfChargeOpRateMax : Option α
  stateOfChargeOpRateFix : Option α
  stateOfChargeTsaWeight : ℚ

/-- The attributes of a constructed `StorageExt` object that the claims read:
the two mode flags and, per operation class, the full-resolution, aggregated
and active time-series views plus the TSA weight. -/
structure StorageExt (α : Type) where
  doPreciseTsaModeling : Bool
  isPeriodicalStorage : Bool
  fullChargeOpRateMax : Option α
  fullChargeOpRateFix : Option α
  aggregatedChargeOpRateMax : Option α
  aggregatedChargeOpRateFix : Option α
  chargeOpRateMax : Option α
  chargeOpRateFix : Option α
  chargeTsaWeight : ℚ
  fullDischargeOpRateMax : Option α
  fullDischargeOpRateFix : Option α
  aggregatedDischargeOpRateMax : Option α
  aggregatedDischargeOpRateFix : Option α
  dischargeOpRateMax : Option α
  dischargeOpRateFix : Option α
  dischargeTsaWeight : ℚ
  fullStateOfChargeOpRateMax : Option α
  fullStateOfChargeOpRateFix : Option α
  aggregatedStateOfChargeOpRateMax : Option α
  aggregatedStateOfChargeOpRateFix : Option α
  stateOfChargeOpRateMax : Option α
  stateOfChargeOpRateFix : Option α
  stateOfChargeTsaWeight : ℚ
deriving DecidableEq, Repr

/-- Modelled from the spec: `utils.setFormattedTimeSeries` lives in
`FINE/utils.py`, which is not under src/. It formats a user-supplied time
series into the internal layout, mapping `None` to `None` and preserving a
present series; formatting does not change which series are present, which is
all the claims depend on, so it is modelled as the identity on `Option α`. -/
def setFormattedTimeSeries (ts : Option α) : Option α := ts

/-- Modelled from the spec: `Storage.__init__` lives in `FINE/storage.py`,
which is not under src/. Per the spec's data model (section 3) it stores the
constructor arguments as the instance's attributes: the mode flags are taken
from the arguments, each charge/discharge series is kept as the
full-resolution view (with the class's Fix/Max exclusivity: a Fix series
invalidates the Max series of the same class), and the aggregated and active
views start unset. The state-of-charge fields are initialised as unset here
and then written by `StorageExt.__init__`. -/
def Storage_init (args : StorageExtArgs α) : StorageExt α :=
  { doPreciseTsaModeling := args.doPreciseTsaModeling
    isPeriodicalStorage := args.isPeriodicalStorage
    fullChargeOpRateMax :=
      setFormattedTimeSeries
        (if args.chargeOpRateFix.isSome then none else args.chargeOpRateMax)
    fullChargeOpRateFix := setFormattedTimeSeries args.chargeOpRateFix
    aggregatedChargeOpRateMax := none
    aggregatedChargeOpRateFix := none
    chargeOpRateMax := none
    chargeOpRateFix := none
    chargeTsaWeight := args.chargeTsaWeight
    fullDischargeOpRateMax :=
      setFormattedTimeSeries
        (if args.dischargeOpRateFix.isSome then none else args.dischargeOpRateMax)
    fullDischargeOpRateFix := setFormattedTimeSeries args.dischargeOpRateFix
    aggregatedDischargeOpRateMax := none
    aggregatedDischargeOpRateFix := none
    dischargeOpRateMax := none
    dischargeOpRateFix := none
    dischargeTsaWeight := args.dischargeTsaWeight
    fullStateOfChargeOpRateMax := none
    fullStateOfChargeOpRateFix := none
    aggregatedStateOfChargeOpRateMax := none
    aggregatedStateOfChargeOpRateFix := none
    stateOfChargeOpRateMax := none
    stateOfChargeOpRateFix := none
    stateOfChargeTsaWeight := args.stateOfChargeTsaWeight }

/-- `StorageExt.__init__` (storageExt.py lines 60-103), restricted to the
state-of-charge handling it adds on top of `Storage.__init__`. It mirrors the
source line by line: lines 73-76 discard the Max series (with a warning) when
both Max and Fix are given; lines 77-81 force `doPreciseTsaModeling` (with a
warning) when either series is present and the flag was passed false; lines
82-85 warn when a Max series remains; lines 86-90 force `isPeriodicalStorage`
(with a warning) when a Fix series is present and the flag was passed false;
lines 94-103 store the formatted full-resolution series, clear the aggregated
and active views and store the TSA weight. The Python global warning channel
is modelled by returning the list of emitted warnings alongside the object. -/
def StorageExt_init (args : StorageExtArgs α) : StorageExt α × List Warning :=
  let socMax1 : Option α :=
    if args.stateOfChargeOpRateMax.isSome && args.stateOfChargeOpRateFix.isSome then
      none
    else
      args.stateOfChargeOpRateMax
  let w1 : List Warning :=
    if args.stateOfChargeOpRateMax.isSome && args.stateOfChargeOpRateFix.isSome then
      [.socOpRateMaxDiscarded]
    else
      []
  let forcePrecise : Bool :=
    (socMax1.isSome || args.stateOfChargeOpRateFix.isSome) && !args.doPreciseTsaModeling
  let w2 : List Warning := if forcePrecise then [.preciseModelingForced] else []
  let w3 : List Warning := if socMax1.isSome then [.socOpRateMaxCaution] else []
  let forcePeriodical : Bool :=
    args.stateOfChargeOpRateFix.isSome && !args.isPeriodicalStorage
  let w4 : List Warning := if forcePeriodical then [.periodicalStorageForced] else []
  let base := Storage_init args
  ({ base with
      doPreciseTsaModeling := base.doPreciseTsaModeling || forcePrecise
      isPeriodicalStorage := base.isPeriodicalStorage || forcePeriodical
      fullStateOfChargeOpRateMax := setFormattedTimeSeries socMax1
      aggregatedStateOfChargeOpRateMax := none
      stateOfChargeOpRateMax := none
      fullStateOfChargeOpRateFix := setFormattedTimeSeries args.stateOfChargeOpRateFix
      aggregatedStateOfChargeOpRateFix := none
      stateOfChargeOpRateFix := none
      stateOfChargeTsaWeight := args.stateOfChargeTsaWeight },
   w1 ++ w2 ++ w3 ++ w4)

/-- `StorageExt.setTimeSeriesData` (storageExt.py lines 120-128), transcribed
verbatim: each active series is set to the aggregated view when `hasTSA` and
to the full-resolution view otherwise. Note that lines 123-124 of the source
read `aggregatedChargeOpRateMax` / `aggregatedChargeOpRateFix` on the
right-hand side of the discharge assignments. -/
def setTimeSeriesData (s : StorageExt α) (hasTSA : Bool) : StorageExt α :=
  { s with
      chargeOpRateMax := if hasTSA then s.aggregatedChargeOpRateMax else s.fullChargeOpRateMax
      chargeOpRateFix := if hasTSA then s.aggregatedChargeOpRateFix else s.fullChargeOpRateFix
      dischargeOpRateMax := if hasTSA then s.aggregatedChargeOpRateMax else s.fullDischargeOpRateMax
      dischargeOpRateFix := if hasTSA then s.aggregatedChargeOpRateFix else s.fullDischargeOpRateFix
      stateOfChargeOpRateMax :=
        if hasTSA then s.aggregatedStateOfChargeOpRateMax else s.fullStateOfChargeOpRateMax
      stateOfChargeOpRateFix :=
        if hasTSA then s.aggregatedStateOfChargeOpRateFix else s.fullStateOfChargeOpRateFix }

/-- One column block handed to the time-series aggregation: the operation
class's name tag, the series itself and its TSA weight. -/
structure TSAEntry (α : Type) where
  rateName : String
  series : α
  weight : ℚ
deriving DecidableEq, Repr

/-- Modelled from the spec: `Component.prepareTSAInput` lives in
`FINE/component.py`, which is not under src/. Per the spec (section 3, TSA
weighting) it appends each present series of the operation class, tagged with
the class's name and weighted by the class's TSA weight, to the accumulated
aggregation input; an absent series contributes nothing. -/
def prepareTSAInput (rateFix rateMax : Option α) (rateName : String) (rateWeight : ℚ)
    (acc : List (TSAEntry α)) : List (TSAEntry α) :=
  let acc := match rateFix with
    | some ts => acc ++ [⟨rateName, ts, rateWeight⟩]
    | none => acc
  match rateMax with
    | some ts => acc ++ [⟨rateName, ts, rateWeight⟩]
    | none => acc

/-- The rate-name tag of the charge operation class. -/
def chargeRateTag : String := "chargeRate_"

/-- The rate-name tag of the discharge operation class. -/
def dischargeRateTag : String := "dischargeRate_"

/-- The rate-name tag of the state-of-charge operation class. -/
def socRateTag : String := "_SOCRate_"

/-- `StorageExt.getDataForTimeSeriesAggregation` (storageExt.py lines
130-138), transcribed verbatim: the charge class contributes
`fullChargeOpRateFix` / `fullChargeOpRateMax` under tag `chargeRate_`, the
discharge class contributes `fullDischargeOpRateFix` /
`fullDischargeOpRateMax` under tag `dischargeRate_`, and the state-of-charge
class contributes the ACTIVE series `stateOfChargeOpRateFix` /
`stateOfChargeOpRateMax` (not the full-resolution ones) under tag
`_SOCRate_`. -/
def getDataForTimeSeriesAggregation (s : StorageExt α) : List (TSAEntry α) :=
  let data : List (TSAEntry α) := []
  let data := prepareTSAInput s.fullChargeOpRateFix s.fullChargeOpRateMax
    chargeRateTag s.chargeTsaWeight data
  let data := prepareTSAInput s.fullDischargeOpRateFix s.fullDischargeOpRateMax
    dischargeRateTag s.dischargeTsaWeight data
  prepareTSAInput s.stateOfChargeOpRateFix s.stateOfChargeOpRateMax
    socRateTag s.stateOfChargeTsaWeight data

/-- The operation classes the generic `operationMode1`..`operationMode5`
constraint family is instantiated for in `declareComponentConstraints`. -/
inductive OpClass where
  | chargeOp
  | dischargeOp
  | stateOfCharge
deriving DecidableEq, Repr

/-- One constraint-declaration call made by
`StorageExtModel.declareComponentConstraints` (storageExt.py lines 291-417),
identified by the method called (and, for the generic operation-mode family,
the variant number and the operation class it is applied to). -/
inductive ConstraintDecl where
  | capToNbReal
  | capToNbInt
  | bigMConstr
  | capacityMinDec
  | capacityFixConstr
  | designBinFix
  | connectSOCs
  | operationMode (variant : ℕ) (opClass : OpClass)
  | cyclicState
  | cyclicLifetimeConstr
  | connectInterPeriodSOC
  | intraSOCstart
  | equalInterSOC
  | minSOC
  | limitSOCwithSimpleTsa
  | operationModeSOCwithTSA (variant : ℕ)
  | minSOCwithTSAprecise
deriving DecidableEq, Repr

/-- `StorageExtModel.declareComponentConstraints` (storageExt.py lines
291-417) as the ordered list of constraint-declaration calls it makes, as a
function of the model's `pyM.hasTSA` flag: the time-independent design
constraints, the SOC-connection constraint, the five charging and five
discharging operation modes, the cyclic constraints; then, only under TSA, the
three inter-period linking constraints; then either (no TSA) the five SOC
operation modes and `minSOC`, or (TSA) the simplified TSA SOC bound, the five
precise TSA SOC constraints and `minSOCwithTSAprecise`. -/
def declareComponentConstraints (hasTSA : Bool) : List ConstraintDecl :=
  [.capToNbReal, .capToNbInt, .bigMConstr, .capacityMinDec, .capacityFixConstr,
   .designBinFix, .connectSOCs,
   .operationMode 1 .chargeOp, .operationMode 2 .chargeOp, .operationMode 3 .chargeOp,
   .operationMode 4 .chargeOp, .operationMode 5 .chargeOp,
   .operationMode 1 .dischargeOp, .operationMode 2 .dischargeOp,
   .operationMode 3 .dischargeOp, .operationMode 4 .dischargeOp,
   .operationMode 5 .dischargeOp,
   .cyclicState, .cyclicLifetimeConstr]
  ++ (if hasTSA then [.connectInterPeriodSOC, .intraSOCstart, .equalInterSOC] else [])
  ++ (if hasTSA then
        [.limitSOCwithSimpleTsa,
         .operationModeSOCwithTSA 1, .operationModeSOCwithTSA 2,
         .operationModeSOCwithTSA 3, .operationModeSOCwithTSA 4,
         .operationModeSOCwithTSA 5,
         .minSOCwithTSAprecise]
      else
        [.operationMode 1 .stateOfCharge, .operationMode 2 .stateOfCharge,
         .operationMode 3 .stateOfCharge, .operationMode 4 .stateOfCharge,
         .operationMode 5 .stateOfCharge,
         .minSOC])

/-- The non-TSA SOC limitation family: the five SOC operation modes and
`minSOC` (storageExt.py lines 368-390). -/
def nonTsaSOCDecls : List ConstraintDecl :=
  [.operationMode 1 .stateOfCharge, .operationMode 2 .stateOfCharge,
   .operationMode 3 .stateOfCharge, .operationMode 4 .stateOfCharge,
   .operationMode 5 .stateOfCharge, .minSOC]

/-- The TSA-specific SOC family: the three inter-period linking constraints,
the simplified TSA bound, the five precise TSA SOC constraints and
`minSOCwithTSAprecise` (storageExt.py lines 357-365 and 392-417). -/
def tsaSOCDecls : List ConstraintDecl :=
  [.connectInterPeriodSOC, .intraSOCstart, .equalInterSOC,
   .limitSOCwithSimpleTsa,
   .operationModeSOCwithTSA 1, .operationModeSOCwithTSA 2,
   .operationModeSOCwithTSA 3, .operationModeSOCwithTSA 4,
   .operationModeSOCwithTSA 5,
   .minSOCwithTSAprecise]

/-- A concrete location name used by the concrete instantiations below. -/
def locEx : String := "elecGrid"

/-- A concrete component name used by the concrete instantiations below. -/
def compEx : String := "saltCavern"

/-- A concrete component dictionary whose component does precise TSA
modeling. -/
def cdTrue : String → StorageCompView := fun _ =>
  { doPreciseTsaModeling := true
    selfDischarge := 1/10
    stateOfChargeMax := 9/10
    stateOfChargeOpRateFix := fun _ p t => (p : ℚ) + (t : ℚ)
    stateOfChargeOpRateMax := fun _ p t => (p : ℚ) * (t : ℚ) + 1 }

/-- A concrete component dictionary whose component does not do precise TSA
modeling. -/
def cdFalse : String → StorageCompView := fun _ =>
  { doPreciseTsaModeling := false
    selfDischarge := 1/10
    stateOfChargeMax := 1
    stateOfChargeOpRateFix := fun _ _ _ => 0
    stateOfChargeOpRateMax := fun _ _ _ => 0 }

/-- A concrete energy system view: one-hour time steps, real periods assigned
alternately to two typical periods. -/
def esEx : EnergySystemView :=
  { hoursPerTimeStep := 1
    periodsOrder := fun p => p % 2 }

/-- A concrete valuation of the decision variables. -/
def vEx : SVar → ℚ
  | .socInter _ _ _ => 4
  | .soc _ _ _ _ => 2
  | .cap _ _ => 10

/-- C1: for pairs in precise-TSA SOC index set 1 with `doPreciseTsaModeling`
true, the generated constraint is exactly
`SOCinter[loc, comp, pInter] * (1 - selfDischarge)^(t * hoursPerTimeStep)
 + SOC[loc, comp, periodsOrder[pInter], t] <= cap[loc, comp] * stateOfChargeMax`:
the rule output equals the spec-side constraint, and a valuation satisfies it
exactly when the decayed inter-period SOC plus the intra-period SOC at the
typical period `periodsOrder[pInter]` is at most capacity times
`stateOfChargeMax`. -/
theorem SOCMaxPrecise1_matches_spec (compDict : String → StorageCompView)
    (esM : EnergySystemView) (loc compName : String) (pInter t : ℕ)
    (h : (compDict compName).doPreciseTsaModeling = true) :
    SOCMaxPrecise1 compDict esM loc compName pInter t
      = specPreciseSOCMaxBound (compDict compName) esM loc compName pInter t ∧
    ∀ v : SVar → ℚ,
      (SOCMaxPrecise1 compDict esM loc compName pInter t).holds v ↔
        v (.socInter loc compName pInter)
            * (1 - (compDict compName).selfDischarge) ^ (t * esM.hoursPerTimeStep)
          + v (.soc loc compName (esM.periodsOrder pInter) t)
          ≤ v (.cap loc compName) * (compDict compName).stateOfChargeMax := by
  constructor
  · simp [SOCMaxPrecise1, specPreciseSOCMaxBound, preciseSOClhs, decayFactor, h]
  · intro v
    simp only [SOCMaxPrecise1, h, if_true, PyConstraint.holds, preciseSOClhs,
      LinExpr.eval, decayFactor]
    constructor <;> intro hh <;> linarith

/-- Witness for `SOCMaxPrecise1_matches_spec` at a concrete component
dictionary, energy system, index tuple and valuation. -/
theorem SOCMaxPrecise1_matches_spec_witness :
    (cdTrue compEx).doPreciseTsaModeling = true ∧
    (SOCMaxPrecise1 cdTrue esEx locEx compEx 3 2
      = specPreciseSOCMaxBound (cdTrue compEx) esEx locEx compEx 3 2) ∧
    ((SOCMaxPrecise1 cdTrue esEx locEx compEx 3 2).holds vEx ↔
      vEx (.socInter locEx compEx 3)
          * (1 - (cdTrue compEx).selfDischarge) ^ (2 * esEx.hoursPerTimeStep)
        + vEx (.soc locEx compEx (esEx.periodsOrder 3) 2)
        ≤ vEx (.cap locEx compEx) * (cdTrue compEx).stateOfChargeMax) :=
  ⟨rfl, (SOCMaxPrecise1_matches_spec cdTrue esEx locEx compEx 3 2 rfl).1,
   (SOCMaxPrecise1_matches_spec cdTrue esEx locEx compEx 3 2 rfl).2 vEx⟩

/-- C4: under precise TSA modeling the fix-equality SOC constraints mirror the
Max cases as equalities and distinguish relative from absolute values: on
index set 2 the rule asserts that the decayed inter-period SOC plus the
intra-period SOC equals capacity times
`stateOfChargeOpRateFix[loc][periodsOrder[pInter], t]`, while on index set 4
it asserts the same left-hand side equals that series value directly, with no
capacity factor. -/
theorem SOCMaxPreciseFix_relative_vs_absolute (compDict : String → StorageCompView)
    (esM : EnergySystemView) (loc compName : String) (pInter t : ℕ)
    (h : (compDict compName).doPreciseTsaModeling = true) :
    (SOCMaxPrecise2 compDict esM loc compName pInter t
      = .eq (preciseSOClhs (compDict compName) esM loc compName pInter t)
            (.scaled ((compDict compName).stateOfChargeOpRateFix loc
                        (esM.periodsOrder pInter) t)
                     (.cap loc compName))) ∧
    (∀ v : SVar → ℚ,
      (SOCMaxPrecise2 compDict esM loc compName pInter t).holds v ↔
        v (.socInter loc compName pInter)
            * (1 - (compDict compName).selfDischarge) ^ (t * esM.hoursPerTimeStep)
          + v (.soc loc compName (esM.periodsOrder pInter) t)
          = v (.cap loc compName)
              * (compDict compName).stateOfChargeOpRateFix loc (esM.periodsOrder pInter) t) ∧
    (SOCMaxPrecise4 compDict esM loc compName pInter t
      = .eq (preciseSOClhs (compDict compName) esM loc compName pInter t)
            (.const ((compDict compName).stateOfChargeOpRateFix loc
                       (esM.periodsOrder pInter) t))) ∧
    (∀ v : SVar → ℚ,
      (SOCMaxPrecise4 compDict esM loc compName pInter t).holds v ↔
        v (.socInter loc compName pInter)
            * (1 - (compDict compName).selfDischarge) ^ (t * esM.hoursPerTimeStep)
          + v (.soc loc compName (esM.periodsOrder pInter) t)
          = (compDict compName).stateOfChargeOpRateFix loc (esM.periodsOrder pInter) t) := by
  refine ⟨?_, ?_, ?_, ?_⟩
  · simp [SOCMaxPrecise2, h]
  · intro v
    simp only [SOCMaxPrecise2, h, if_true, PyConstraint.holds, preciseSOClhs,
      LinExpr.eval, decayFactor]
    constructor <;> intro hh <;> linarith
  · simp [SOCMaxPrecise4, h]
  · intro v
    simp only [SOCMaxPrecise4, h, if_true, PyConstraint.holds, preciseSOClhs,
      LinExpr.eval, decayFactor]
    constructor <;> intro hh <;> linarith

/-- Witness for `SOCMaxPreciseFix_relative_vs_absolute` at a concrete
component dictionary, energy system, index tuple and valuation. -/
theorem SOCMaxPreciseFix_relative_vs_absolute_witness :
    (cdTrue compEx).doPreciseTsaModeling = true ∧
    (SOCMaxPrecise2 cdTrue esEx locEx compEx 1 2
      = .eq (preciseSOClhs (cdTrue compEx) esEx locEx compEx 1 2)
            (.scaled ((cdTrue compEx).stateOfChargeOpRateFix locEx
                        (esEx.periodsOrder 1) 2)
                     (.cap locEx compEx))) ∧
    ((SOCMaxPrecise2 cdTrue esEx locEx compEx 1 2).holds vEx ↔
      vEx (.socInter locEx compEx 1)
          * (1 - (cdTrue compEx).selfDischarge) ^ (2 * esEx.hoursPerTimeStep)
        + vEx (.soc locEx compEx (esEx.periodsOrder 1) 2)
        = vEx (.cap locEx compEx)
            * (cdTrue compEx).stateOfChargeOpRateFix locEx (esEx.periodsOrder 1) 2) ∧
    (SOCMaxPrecise4 cdTrue esEx locEx compEx 1 2
      = .eq (preciseSOClhs (cdTrue compEx) esEx locEx compEx 1 2)
            (.const ((cdTrue compEx).stateOfChargeOpRateFix locEx
                       (esEx.periodsOrder 1) 2))) ∧
    ((SOCMaxPrecise4 cdTrue esEx locEx compEx 1 2).holds vEx ↔
      vEx (.socInter locEx compEx 1)
          * (1 - (cdTrue compEx).selfDischarge) ^ (2 * esEx.hoursPerTimeStep)
        + vEx (.soc locEx compEx (esEx.periodsOrder 1) 2)
        = (cdTrue compEx).stateOfChargeOpRateFix locEx (esEx.periodsOrder 1) 2) :=
  ⟨rfl, (SOCMaxPreciseFix_relative_vs_absolute cdTrue esEx locEx compEx 1 2 rfl).1,
   (SOCMaxPreciseFix_relative_vs_absolute cdTrue esEx locEx compEx 1 2 rfl).2.1 vEx,
   (SOCMaxPreciseFix_relative_vs_absolute cdTrue esEx locEx compEx 1 2 rfl).2.2.1,
   (SOCMaxPreciseFix_relative_vs_absolute cdTrue esEx locEx compEx 1 2 rfl).2.2.2 vEx⟩

/-- C5: for a component with `doPreciseTsaModeling` false, every one of the
five precise-TSA SOC constraint rules yields `pyomo.Constraint.Skip` at every
(location, component, period, timestep) index. -/
theorem SOCwithTSA_skip_without_precise (compDict : String → StorageCompView)
    (esM : EnergySystemView) (loc compName : String) (pInter t : ℕ)
    (h : (compDict compName).doPreciseTsaModeling = false) :
    SOCMaxPrecise1 compDict esM loc compName pInter t = .skip ∧
    SOCMaxPrecise2 compDict esM loc compName pInter t = .skip ∧
    SOCMaxPrecise3 compDict esM loc compName pInter t = .skip ∧
    SOCMaxPrecise4 compDict esM loc compName pInter t = .skip ∧
    SOCMaxPrecise5 compDict esM loc compName pInter t = .skip := by
  simp [SOCMaxPrecise1, SOCMaxPrecise2, SOCMaxPrecise3, SOCMaxPrecise4,
    SOCMaxPrecise5, h]

/-- Witness for `SOCwithTSA_skip_without_precise` at a concrete component
dictionary, energy system and index tuple. -/
theorem SOCwithTSA_skip_without_precise_witness :
    (cdFalse compEx).doPreciseTsaModeling = false ∧
    (SOCMaxPrecise1 cdFalse esEx locEx compEx 0 0 = .skip ∧
     SOCMaxPrecise2 cdFalse esEx locEx compEx 0 0 = .skip ∧
     SOCMaxPrecise3 cdFalse esEx locEx compEx 0 0 = .skip ∧
     SOCMaxPrecise4 cdFalse esEx locEx compEx 0 0 = .skip ∧
     SOCMaxPrecise5 cdFalse esEx locEx compEx 0 0 = .skip) :=
  ⟨rfl, SOCwithTSA_skip_without_precise cdFalse esEx locEx compEx 0 0 rfl⟩

/-- C9: the decay factor `(1 - selfDischarge)^k` of the precise-TSA SOC
constraints is strictly decreasing in `k` for `0 < selfDischarge < 1`, equals
1 at `k = 0` for `selfDischarge` in `[0, 1)`, and consequently at the first
timestep (`t = 0`) of a period the shared constraint left-hand side evaluates
to the inter-period SOC plus the intra-period SOC with no decay applied. -/
theorem decayFactor_props :
    (∀ s : ℚ, 0 < s → s < 1 → ∀ k l : ℕ, k < l → decayFactor s l < decayFactor s k) ∧
    (∀ s : ℚ, 0 ≤ s → s < 1 → decayFactor s 0 = 1) ∧
    (∀ (cv : StorageCompView) (esM : EnergySystemView) (loc compName : String)
        (pInter : ℕ) (v : SVar → ℚ),
      (preciseSOClhs cv esM loc compName pInter 0).eval v
        = v (.socInter loc compName pInter)
          + v (.soc loc compName (esM.periodsOrder pInter) 0)) := by
  refine ⟨?_, ?_, ?_⟩
  · intro s hs0 hs1 k l hkl
    exact pow_lt_pow_right_of_lt_one₀ (by linarith) (by linarith) hkl
  · intro s _ _
    simp [decayFactor]
  · intro cv esM loc compName pInter v
    simp [preciseSOClhs, LinExpr.eval, decayFactor]

/-- Witness for `decayFactor_props` at the concrete self discharge 1/2,
exponents 1 and 2, and a concrete component, energy system and valuation. -/
theorem decayFactor_props_witness :
    ((0:ℚ) < 1/2 ∧ (1:ℚ)/2 < 1 ∧ 1 < 2 ∧ decayFactor (1/2) 2 < decayFactor (1/2) 1) ∧
    ((0:ℚ) ≤ 1/2 ∧ decayFactor (1/2) 0 = 1) ∧
    (preciseSOClhs (cdTrue compEx) esEx locEx compEx 5 0).eval vEx
      = vEx (.socInter locEx compEx 5)
        + vEx (.soc locEx compEx (esEx.periodsOrder 5) 0) :=
  ⟨⟨by norm_num, by norm_num, by norm_num,
    decayFactor_props.1 (1/2) (by norm_num) (by norm_num) 1 2 (by norm_num)⟩,
   ⟨by norm_num, decayFactor_props.2.1 (1/2) (by norm_num) (by norm_num)⟩,
   decayFactor_props.2.2 (cdTrue compEx) esEx locEx compEx 5 vEx⟩

/-- C6: when both `stateOfChargeOpRateMax` and `stateOfChargeOpRateFix` are
supplied, construction succeeds with the Fix series winning: the full Max view
is ` None`, the full Fix view holds the supplied fixed series, the non-fatal
discard warning is emitted, and at most one of the two full SOC views is
present. -/
theorem StorageExt_init_fixWins {α : Type} (args : StorageExtArgs α)
    (hmax : args.stateOfChargeOpRateMax.isSome = true)
    (hfix : args.stateOfChargeOpRateFix.isSome = true) :
    (StorageExt_init args).1.fullStateOfChargeOpRateMax = none ∧
    (StorageExt_init args).1.fullStateOfChargeOpRateFix = args.stateOfChargeOpRateFix ∧
    Warning.socOpRateMaxDiscarded ∈ (StorageExt_init args).2 ∧
    ((StorageExt_init args).1.fullStateOfChargeOpRateMax.isSome = false ∨
     (StorageExt_init args).1.fullStateOfChargeOpRateFix.isSome = false) := by
  simp [StorageExt_init, Storage_init, setFormattedTimeSeries, hmax, hfix]

/-- C7: when a `stateOfChargeOpRateFix` series is supplied, the constructed
object has `doPreciseTsaModeling = true` and `isPeriodicalStorage = true`
regardless of the flag arguments, and whenever a flag argument was false the
corresponding forcing warning is emitted instead of a rejection. -/
theorem StorageExt_init_forcesFlags {α : Type} (args : StorageExtArgs α)
    (hfix : args.stateOfChargeOpRateFix.isSome = true) :
    (StorageExt_init args).1.doPreciseTsaModeling = true ∧
    (StorageExt_init args).1.isPeriodicalStorage = true ∧
    (args.doPreciseTsaModeling = false →
      Warning.preciseModelingForced ∈ (StorageExt_init args).2) ∧
    (args.isPeriodicalStorage = false →
      Warning.periodicalStorageForced ∈ (StorageExt_init args).2) := by
  cases hdp : args.doPreciseTsaModeling <;> cases hip : args.isPeriodicalStorage <;>
    simp [StorageExt_init, Storage_init, setFormattedTimeSeries, hfix, hdp, hip]

/-- C10: when `stateOfChargeOpRateMax` is supplied without a Fix series and
`doPreciseTsaModeling` is passed false, the constructed object nevertheless
has `doPreciseTsaModeling = true` with the forcing warning, while
`isPeriodicalStorage` keeps the value passed by the caller. -/
theorem StorageExt_init_maxForcesPreciseOnly {α : Type} (args : StorageExtArgs α)
    (hmax : args.stateOfChargeOpRateMax.isSome = true)
    (hfix : args.stateOfChargeOpRateFix = none)
    (hdp : args.doPreciseTsaModeling = false) :
    (StorageExt_init args).1.doPreciseTsaModeling = true ∧
    Warning.preciseModelingForced ∈ (StorageExt_init args).2 ∧
    (StorageExt_init args).1.isPeriodicalStorage = args.isPeriodicalStorage := by
  simp [StorageExt_init, Storage_init, setFormattedTimeSeries, hmax, hfix, hdp]

/-- Concrete constructor arguments supplying both a Max and a Fix SOC series,
with both mode flags passed false. -/
def argsBothEx : StorageExtArgs ℕ :=
  { doPreciseTsaModeling := false
    isPeriodicalStorage := false
    chargeOpRateMax := none
    chargeOpRateFix := none
    chargeTsaWeight := 1
    dischargeOpRateMax := none
    dischargeOpRateFix := none
    dischargeTsaWeight := 1
    stateOfChargeOpRateMax := some 5
    stateOfChargeOpRateFix := some 7
    stateOfChargeTsaWeight := 1 }

/-- Concrete constructor arguments supplying only a Max SOC series, with
`doPreciseTsaModeling` passed false and `isPeriodicalStorage` passed true. -/
def argsMaxEx : StorageExtArgs ℕ :=
  { doPreciseTsaModeling := false
    isPeriodicalStorage := true
    chargeOpRateMax := none
    chargeOpRateFix := none
    chargeTsaWeight := 1
    dischargeOpRateMax := none
    dischargeOpRateFix := none
    dischargeTsaWeight := 1
    stateOfChargeOpRateMax := some 5
    stateOfChargeOpRateFix := none
    stateOfChargeTsaWeight := 1 }

/-- Witness for `StorageExt_init_fixWins` at concrete constructor arguments. -/
theorem StorageExt_init_fixWins_witness :
    argsBothEx.stateOfChargeOpRateMax.isSome = true ∧
    argsBothEx.stateOfChargeOpRateFix.isSome = true ∧
    ((StorageExt_init argsBothEx).1.fullStateOfChargeOpRateMax = none ∧
     (StorageExt_init argsBothEx).1.fullStateOfChargeOpRateFix
       = argsBothEx.stateOfChargeOpRateFix ∧
     Warning.socOpRateMaxDiscarded ∈ (StorageExt_init argsBothEx).2 ∧
     ((StorageExt_init argsBothEx).1.fullStateOfChargeOpRateMax.isSome = false ∨
      (StorageExt_init argsBothEx).1.fullStateOfChargeOpRateFix.isSome = false)) :=
  ⟨rfl, rfl, StorageExt_init_fixWins argsBothEx rfl rfl⟩

/-- Witness for `StorageExt_init_forcesFlags` at concrete constructor
arguments where both flags were passed false. -/
theorem StorageExt_init_forcesFlags_witness :
    argsBothEx.stateOfChargeOpRateFix.isSome = true ∧
    argsBothEx.doPreciseTsaModeling = false ∧
    argsBothEx.isPeriodicalStorage = false ∧
    (StorageExt_init argsBothEx).1.doPreciseTsaModeling = true ∧
    (StorageExt_init argsBothEx).1.isPeriodicalStorage = true ∧
    Warning.preciseModelingForced ∈ (StorageExt_init argsBothEx).2 ∧
    Warning.periodicalStorageForced ∈ (StorageExt_init argsBothEx).2 :=
  ⟨rfl, rfl, rfl,
   (StorageExt_init_forcesFlags argsBothEx rfl).1,
   (StorageExt_init_forcesFlags argsBothEx rfl).2.1,
   (StorageExt_init_forcesFlags argsBothEx rfl).2.2.1 rfl,
   (StorageExt_init_forcesFlags argsBothEx rfl).2.2.2 rfl⟩

/-- Witness for `StorageExt_init_maxForcesPreciseOnly` at concrete constructor
arguments. -/
theorem StorageExt_init_maxForcesPreciseOnly_witness :
    argsMaxEx.stateOfChargeOpRateMax.isSome = true ∧
    argsMaxEx.stateOfChargeOpRateFix = none ∧
    argsMaxEx.doPreciseTsaModeling = false ∧
    ((StorageExt_init argsMaxEx).1.doPreciseTsaModeling = true ∧
     Warning.preciseModelingForced ∈ (StorageExt_init argsMaxEx).2 ∧
     (StorageExt_init argsMaxEx).1.isPeriodicalStorage = argsMaxEx.isPeriodicalStorage) :=
  ⟨rfl, rfl, rfl, StorageExt_init_maxForcesPreciseOnly argsMaxEx rfl rfl rfl⟩

/-- C8: `declareComponentConstraints` selects the SOC limitation family by the
TSA flag: without TSA every non-TSA SOC declaration (the five SOC operation
modes and `minSOC`) is made and no TSA-specific SOC declaration is; with TSA
every TSA-specific SOC declaration (the three inter-period linking
constraints, the simplified bound, the five precise SOC constraints and
`minSOCwithTSAprecise`) is made and no non-TSA SOC declaration is; no run
declares both families. -/
theorem socFamilySelection :
    nonTsaSOCDecls ⊆ declareComponentConstraints false ∧
    (∀ d ∈ tsaSOCDecls, d ∉ declareComponentConstraints false) ∧
    tsaSOCDecls ⊆ declareComponentConstraints true ∧
    (∀ d ∈ nonTsaSOCDecls, d ∉ declareComponentConstraints true) := by
  refine ⟨?_, ?_, ?_, ?_⟩ <;> decide

/-- Witness for `socFamilySelection` at the concrete declaration `minSOC`
(contained in the non-TSA run) and `minSOCwithTSAprecise` (contained in the
TSA run and absent from the non-TSA run). -/
theorem socFamilySelection_witness :
    (ConstraintDecl.minSOC ∈ nonTsaSOCDecls ∧
     ConstraintDecl.minSOC ∈ declareComponentConstraints false) ∧
    (ConstraintDecl.minSOCwithTSAprecise ∈ tsaSOCDecls ∧
     ConstraintDecl.minSOCwithTSAprecise ∈ declareComponentConstraints true) ∧
    ConstraintDecl.minSOCwithTSAprecise ∉ declareComponentConstraints false :=
  ⟨⟨by decide, socFamilySelection.1 (by decide)⟩,
   ⟨by decide, socFamilySelection.2.2.1 (by decide)⟩,
   socFamilySelection.2.1 ConstraintDecl.minSOCwithTSAprecise (by decide)⟩

/-- A concrete `StorageExt` object with an aggregated view in which all six
aggregated series are present and pairwise distinct. -/
def tsViewEx : StorageExt ℕ :=
  { doPreciseTsaModeling := true
    isPeriodicalStorage := false
    fullChargeOpRateMax := some 10
    fullChargeOpRateFix := none
    aggregatedChargeOpRateMax := some 1
    aggregatedChargeOpRateFix := some 2
    chargeOpRateMax := none
    chargeOpRateFix := none
    chargeTsaWeight := 1
    fullDischargeOpRateMax := some 20
    fullDischargeOpRateFix := none
    aggregatedDischargeOpRateMax := some 3
    aggregatedDischargeOpRateFix := some 4
    dischargeOpRateMax := none
    dischargeOpRateFix := none
    dischargeTsaWeight := 1
    fullStateOfChargeOpRateMax := none
    fullStateOfChargeOpRateFix := none
    aggregatedStateOfChargeOpRateMax := some 5
    aggregatedStateOfChargeOpRateFix := some 6
    stateOfChargeOpRateMax := none
    stateOfChargeOpRateFix := none
    stateOfChargeTsaWeight := 1 }

/-- C2 failing input: selecting the aggregated view sets the active discharge
series to the CHARGE class's aggregated series, not the discharge class's own
aggregated series (storageExt.py lines 123-124), on a concrete object whose
aggregated charge and discharge series differ; the full-resolution selection
(`hasTSA = false`) is correct for the discharge class. -/
theorem setTimeSeriesData_discharge_mixup :
    (setTimeSeriesData tsViewEx true).dischargeOpRateMax
      = tsViewEx.aggregatedChargeOpRateMax ∧
    (setTimeSeriesData tsViewEx true).dischargeOpRateFix
      = tsViewEx.aggregatedChargeOpRateFix ∧
    (setTimeSeriesData tsViewEx true).dischargeOpRateMax
      ≠ tsViewEx.aggregatedDischargeOpRateMax ∧
    (setTimeSeriesData tsViewEx true).dischargeOpRateFix
      ≠ tsViewEx.aggregatedDischargeOpRateFix ∧
    (setTimeSeriesData tsViewEx false).dischargeOpRateMax
      = tsViewEx.fullDischargeOpRateMax ∧
    (setTimeSeriesData tsViewEx false).dischargeOpRateFix
      = tsViewEx.fullDischargeOpRateFix := by
  decide

/-- Concrete constructor arguments supplying a full-resolution charge Fix
series and a full-resolution SOC Fix series. -/
def argsSocEx : StorageExtArgs ℕ :=
  { doPreciseTsaModeling := false
    isPeriodicalStorage := false
    chargeOpRateMax := none
    chargeOpRateFix := some 3
    chargeTsaWeight := 1
    dischargeOpRateMax := none
    dischargeOpRateFix := none
    dischargeTsaWeight := 1
    stateOfChargeOpRateMax := none
    stateOfChargeOpRateFix := some 7
    stateOfChargeTsaWeight := 1 }

/-- C3 failing input: on an object constructed with an SOC Fix series,
`getDataForTimeSeriesAggregation` reads the ACTIVE SOC series (storageExt.py
line 134), which is still unset right after construction, so the aggregation
input contains the charge class entry from its full-resolution series but no
SOC entry at all — even though the full-resolution SOC Fix series is present
on the object. -/
theorem getDataForTSA_socOmitted :
    (StorageExt_init argsSocEx).1.fullStateOfChargeOpRateFix = some 7 ∧
    (StorageExt_init argsSocEx).1.stateOfChargeOpRateFix = none ∧
    (StorageExt_init argsSocEx).1.stateOfChargeOpRateMax = none ∧
    (getDataForTimeSeriesAggregation (StorageExt_init argsSocEx).1).map TSAEntry.rateName
      = [chargeRateTag] := by
  decide
